import Mathlib

/-!
Verification of the podio handle/payload object model and the schema
evolution registry against their natural-language specification.

The handle classes (`ExampleHit`, `ExampleReferencingType`) are shallowly
embedded: a payload store is a list of optional payload objects (a `none`
entry is a destroyed payload), a handle holds a nullable pointer
(`Option Nat`) into that store, and every member function of the C++
source becomes an explicit state-passing Lean function.  C++ `double`
fields are carried as `Int`: no claim computes with them, they are only
copied and compared.  C++ `int` relation-range fields are carried as
`Int` with the source's signed arithmetic.
-/

namespace Podio

/-- `albers::ObjectID`: stable identity of a record within a collection. -/
structure ObjectID where
  index : Int
  collectionID : Int
deriving DecidableEq, Repr

/-- Modelled from the spec: the identity of a payload not (yet) tracked by a
collection, used for freshly allocated payloads (the generated `Obj`
headers are not in the source tree). -/
def ObjectID.untracked : ObjectID := ⟨-1, -1⟩

/-- The generated payload object (`ExampleHitObj` / `ExampleReferencingTypeObj`
and their common `ObjBase`): a reference count, an `ObjectID`, and the POD
data block `δ`. -/
structure ObjBase (δ : Type) where
  refCount : Nat
  id : ObjectID
  data : δ
deriving DecidableEq, Repr

/-- A payload store: index = pointer value, `none` = the payload at that
address has been destroyed. -/
abbrev Store (δ : Type) := List (Option (ObjBase δ))

/-- Dereference a payload pointer: `none` when the slot was freed or the
pointer is out of range. -/
def deref (s : Store δ) (p : Nat) : Option (ObjBase δ) :=
  (s[p]?).join

/-- Replace the payload at address `p` (no-op when `p` is invalid). -/
def writeObj (s : Store δ) (p : Nat) (o : Option (ObjBase δ)) : Store δ :=
  s.set p o

/-- Modelled from the spec: `ObjBase::acquire` (header not in the source
tree) increments the payload's reference count. -/
def acquire (s : Store δ) (p : Nat) : Store δ :=
  match deref s p with
  | none => s
  | some o => writeObj s p (some { o with refCount := o.refCount + 1 })

/-- Modelled from the spec: `ObjBase::release` (header not in the source
tree) decrements the payload's reference count and destroys the payload
exactly when the count reaches zero. -/
def release (s : Store δ) (p : Nat) : Store δ :=
  match deref s p with
  | none => s
  | some o =>
    if o.refCount ≤ 1 then writeObj s p none
    else writeObj s p (some { o with refCount := o.refCount - 1 })

/-- A handle: wraps the nullable payload pointer `m_obj`. -/
structure Handle where
  m_obj : Option Nat
deriving DecidableEq, Repr

/-- `ExampleHit::ExampleHit(const ExampleHit& other)` (and the identical
`ExampleReferencingType` copy constructor): take over the source pointer and
acquire it.  The C++ copy constructor dereferences unconditionally, so it is
embedded on a non-null source pointer. -/
def copyCtor (s : Store δ) (p : Nat) : Store δ × Handle :=
  (acquire s p, ⟨some p⟩)

/-- `ExampleHit::operator=` (and the identical `ExampleReferencingType`
assignment): release the currently referenced payload when non-null, then
take over the other handle's pointer.  The source performs no acquire. -/
def assign (s : Store δ) (h other : Handle) : Store δ × Handle :=
  let s1 := match h.m_obj with
    | some p => release s p
    | none => s
  (s1, ⟨other.m_obj⟩)

/-- `ExampleHit::~ExampleHit` (and the identical `ExampleReferencingType`
destructor): release the referenced payload when non-null. -/
def destruct (s : Store δ) (h : Handle) : Store δ :=
  match h.m_obj with
  | some p => release s p
  | none => s

/-- `ExampleHit::isAvailable` / `ExampleReferencingType::isAvailable`:
true exactly when `m_obj` is non-null. -/
def isAvailable (h : Handle) : Bool :=
  h.m_obj.isSome

/-- `ExampleHit::getObjectID` / `ExampleReferencingType::getObjectID`:
return `m_obj->id`.  The C++ dereferences unconditionally; the embedding
returns `none` on a null or dangling pointer. -/
def getObjectID (s : Store δ) (h : Handle) : Option ObjectID :=
  h.m_obj.bind fun p => (deref s p).map (·.id)

/-- Modelled from the spec: the generated payload copy constructor
(`new ExampleHitObj(*m_obj)`; header not in the source tree) allocates a
fresh payload whose POD fields and relation-range values are copied from
the source, with a reference count of zero and an untracked identity; the
handle constructor used by `clone` then acquires it, so the clone's
reference count starts at 1. -/
def objCopy (o : ObjBase δ) : ObjBase δ :=
  { refCount := 0, id := ObjectID.untracked, data := o.data }

/-- `ExampleHit::clone` / `ExampleReferencingType::clone`:
`return {new XObj(*m_obj)};` — allocate a copy of the payload at a fresh
address and hand it to the pointer constructor, which acquires it. -/
def clone (s : Store δ) (p : Nat) : Store δ × Handle :=
  match deref s p with
  | none => (s, ⟨none⟩)
  | some o =>
    let q := s.length
    let s1 := s ++ [some (objCopy o)]
    (acquire s1 q, ⟨some q⟩)

/-- `ExampleHitData`: the POD field block of `ExampleHit` (`double` fields
carried as `Int`; only copied, never computed with). -/
structure ExampleHitData where
  x : Int
  y : Int
  z : Int
  energy : Int
deriving DecidableEq, Repr

/-- Modelled from the spec: the generated setter `setX` (header not in the
source tree) writes the field in the referenced payload. -/
def setX (s : Store ExampleHitData) (p : Nat) (v : Int) : Store ExampleHitData :=
  match deref s p with
  | none => s
  | some o => writeObj s p (some { o with data := { o.data with x := v } })

/-- Modelled from the spec: the generated setter `setY`. -/
def setY (s : Store ExampleHitData) (p : Nat) (v : Int) : Store ExampleHitData :=
  match deref s p with
  | none => s
  | some o => writeObj s p (some { o with data := { o.data with y := v } })

/-- Modelled from the spec: the generated setter `setZ`. -/
def setZ (s : Store ExampleHitData) (p : Nat) (v : Int) : Store ExampleHitData :=
  match deref s p with
  | none => s
  | some o => writeObj s p (some { o with data := { o.data with z := v } })

/-- Modelled from the spec: the generated setter `setEnergy`. -/
def setEnergy (s : Store ExampleHitData) (p : Nat) (v : Int) : Store ExampleHitData :=
  match deref s p with
  | none => s
  | some o => writeObj s p (some { o with data := { o.data with energy := v } })

/-- `ExampleReferencingTypeData`: the POD block of `ExampleReferencingType` —
the stored relation ranges (C++ `int` fields carried as `Int`). -/
structure ExampleReferencingTypeData where
  Clusters_begin : Int
  Clusters_end : Int
  Refs_begin : Int
  Refs_end : Int
deriving DecidableEq, Repr

/-- The state of an `ExampleReferencingType` collection: the payload store
plus, modelled from the spec, the collection-shared relation vectors that
the payloads' `m_Clusters` / `m_Refs` pointers reference (the generated
`Obj` and collection headers are not in the source tree; the spec says each
relation field is backed by exactly one shared vector per collection).
Related records are abstracted to `Nat` identifiers. -/
structure RefStore where
  objs : Store ExampleReferencingTypeData
  m_Clusters : List Nat
  m_Refs : List Nat
deriving DecidableEq, Repr

/-- `ExampleReferencingType::addClusters`:
`m_obj->m_Clusters->push_back(component); m_obj->data.Clusters_end++;`. -/
def addClusters (s : RefStore) (p : Nat) (component : Nat) : RefStore :=
  match deref s.objs p with
  | none => s
  | some o =>
    { s with
      m_Clusters := s.m_Clusters ++ [component],
      objs := writeObj s.objs p
        (some { o with data := { o.data with Clusters_end := o.data.Clusters_end + 1 } }) }

/-- `ExampleReferencingType::addRefs`:
`m_obj->m_Refs->push_back(component); m_obj->data.Refs_end++;`. -/
def addRefs (s : RefStore) (p : Nat) (component : Nat) : RefStore :=
  match deref s.objs p with
  | none => s
  | some o =>
    { s with
      m_Refs := s.m_Refs ++ [component],
      objs := writeObj s.objs p
        (some { o with data := { o.data with Refs_end := o.data.Refs_end + 1 } }) }

/-- `ExampleReferencingType::Clusters_begin`: the vector's begin iterator
advanced by `data.Clusters_begin`.  Iterators are modelled as signed offsets
from the shared vector's begin; `none` only for a null/dangling handle. -/
def Clusters_beginIter (s : RefStore) (p : Nat) : Option Int :=
  (deref s.objs p).map fun o => o.data.Clusters_begin

/-- The intermediate iterator formed inside `ExampleReferencingType::Clusters_end`:
the vector's begin iterator advanced by `data.Clusters_end - 1` (before the
final increment). -/
def Clusters_endIterPre (s : RefStore) (p : Nat) : Option Int :=
  (deref s.objs p).map fun o => o.data.Clusters_end - 1

/-- `ExampleReferencingType::Clusters_end`: the intermediate iterator
incremented once, i.e. the offset `(data.Clusters_end - 1) + 1`. -/
def Clusters_endIter (s : RefStore) (p : Nat) : Option Int :=
  (Clusters_endIterPre s p).map fun i => i + 1

/-- The records covered by a relation range `[b, e)` of the shared vector
`v` — the mathematical reading of the half-open interval used by the spec
to state range coverage. -/
def rangeElems (v : List Nat) (b e : Int) : List Nat :=
  (v.drop b.toNat).take (e - b).toNat

/-! ### Schema evolution registry

The repository contains only the declaration header `podio/SchemaEvolution.h`;
the implementation file is not in the source tree, so the registry's
behaviour is modelled from the spec over the header's data structures
(`VersionMapT`, `EvolutionMapT`, `MapIndex`, `Priority`). -/

/-- `podio::CollectionReadBuffers`, modelled from the spec: a bundle of the
primary data array, one array per relation field, and a schema version
tag. -/
structure CollectionReadBuffers where
  dataArray : List Int
  relationArrays : List (List Nat)
  schemaVersion : Nat
deriving DecidableEq, Repr

/-- `podio::SchemaVersionT` (C++ `uint32_t`). -/
abbrev SchemaVersionT := Nat

/-- `SchemaEvolution::EvolutionFuncT`: buffers and a version in, buffers
out. -/
abbrev EvolutionFuncT := CollectionReadBuffers → SchemaVersionT → CollectionReadBuffers

/-- `SchemaEvolution::Priority`: `AutoGenerated = 0 < UserDefined = 1`. -/
inductive Priority where
  | AutoGenerated
  | UserDefined
deriving DecidableEq, Repr

/-- `SchemaEvolution::MapIndex`: the current schema version of a type and an
index into the evolution-function map; `index = none` models the
`NoEvolutionAvailable` tombstone (`-1u` in the header). -/
structure MapIndex where
  currentVersion : SchemaVersionT
  index : Option Nat
deriving DecidableEq, Repr

/-- The `SchemaEvolution` singleton's state: the version map
(`m_versionMapIndices`, an association list standing for the header's
`unordered_map`) and the evolution-function map (`m_evolutionFuncs`), each
inner table indexed by `fromVersion - 1` and holding the registered
function together with its registration priority. -/
structure SchemaEvolution where
  m_versionMapIndices : List (String × MapIndex)
  m_evolutionFuncs : List (List (Option (Priority × EvolutionFuncT)))

/-- Look up a type's `MapIndex` in the version map. -/
def lookupType (reg : SchemaEvolution) (collType : String) : Option MapIndex :=
  (reg.m_versionMapIndices.find? fun e => e.1 == collType).map (·.2)

/-- The evolution-function table registered for a given map index. -/
def slotTable (reg : SchemaEvolution) (idx : Nat) :
    List (Option (Priority × EvolutionFuncT)) :=
  reg.m_evolutionFuncs.getD idx []

/-- Violations of the registration preconditions of the spec (reported
alongside the updated state; the state is left unchanged when one occurs). -/
inductive RegError where
  | versionConflict
  | duplicateRegistration
  | priorityConflict
deriving DecidableEq, Repr

/-- Modelled from the spec: `SchemaEvolution::registerEvolutionFunc`
(implementation not in the source tree).  Records `evolutionFunc` as the
transform for `(collType, fromVersion)`: a new type allocates a fresh
function table of `currentVersion - 1` slots; a `currentVersion` differing
from the recorded one is a version conflict; re-registration at the same
priority for an occupied slot is rejected; a `UserDefined` registration
overrides an existing `AutoGenerated` one; an `AutoGenerated` registration
never overrides an existing `UserDefined` one (priority conflict, state
unchanged). -/
def registerEvolutionFunc (reg : SchemaEvolution) (collType : String)
    (fromVersion currentVersion : SchemaVersionT) (evolutionFunc : EvolutionFuncT)
    (priority : Priority) : SchemaEvolution × Option RegError :=
  match lookupType reg collType with
  | none =>
    let table := (List.replicate (currentVersion - 1) none).set (fromVersion - 1)
        (some (priority, evolutionFunc))
    ({ m_versionMapIndices :=
         reg.m_versionMapIndices ++
           [(collType, ⟨currentVersion, some reg.m_evolutionFuncs.length⟩)],
       m_evolutionFuncs := reg.m_evolutionFuncs ++ [table] }, none)
  | some mi =>
    if currentVersion ≠ mi.currentVersion then (reg, some .versionConflict)
    else
      match mi.index with
      | none =>
        let table := (List.replicate (currentVersion - 1) none).set (fromVersion - 1)
            (some (priority, evolutionFunc))
        ({ m_versionMapIndices := reg.m_versionMapIndices.map fun e =>
             if e.1 == collType then (e.1, ⟨mi.currentVersion, some reg.m_evolutionFuncs.length⟩)
             else e,
           m_evolutionFuncs := reg.m_evolutionFuncs ++ [table] }, none)
      | some idx =>
        match (slotTable reg idx).getD (fromVersion - 1) none with
        | none =>
          ({ reg with
             m_evolutionFuncs := (reg.m_evolutionFuncs.set idx
               ((slotTable reg idx).set (fromVersion - 1)
                 (some (priority, evolutionFunc)))) }, none)
        | some (oldPriority, _) =>
          if oldPriority = priority then (reg, some .duplicateRegistration)
          else if priority = .UserDefined then
            ({ reg with
               m_evolutionFuncs := (reg.m_evolutionFuncs.set idx
                 ((slotTable reg idx).set (fromVersion - 1)
                   (some (priority, evolutionFunc)))) }, none)
          else (reg, some .priorityConflict)

/-- The failures of `evolveBuffers`: an unknown type, or a lookup miss for a
`(type, fromVersion)` with no registered function — both distinct from the
same-version fast path. -/
inductive EvolveError where
  | unknownType
  | lookupMiss
deriving DecidableEq, Repr

/-- The successful outcomes of `evolveBuffers`, distinguishing the
same-version fast path (input returned unchanged, no function invoked) from
an actual invocation of a registered evolution function. -/
inductive EvolveOutcome where
  | fastPath (buffers : CollectionReadBuffers)
  | evolved (buffers : CollectionReadBuffers)
deriving DecidableEq, Repr

/-- Modelled from the spec: `SchemaEvolution::evolveBuffers` (implementation
not in the source tree; the header's documentation describes the
behaviour).  If `fromVersion` equals the type's registered current version,
the input buffers are returned unchanged on the fast path with no function
invoked; otherwise the function registered for `(collType, fromVersion)` is
looked up and invoked once; a missing type or missing function is a
synchronous error, never a silent fall-back to identity. -/
def evolveBuffers (reg : SchemaEvolution) (oldBuffers : CollectionReadBuffers)
    (fromVersion : SchemaVersionT) (collType : String) :
    Except EvolveError EvolveOutcome :=
  match lookupType reg collType with
  | none => .error .unknownType
  | some mi =>
    if fromVersion = mi.currentVersion then .ok (.fastPath oldBuffers)
    else
      match mi.index with
      | none => .error .lookupMiss
      | some idx =>
        match (slotTable reg idx).getD (fromVersion - 1) none with
        | none => .error .lookupMiss
        | some (_, f) => .ok (.evolved (f oldBuffers fromVersion))

/-- `SchemaEvolution::noOpSchemaEvolution`: returns the buffers unchanged
(the header documents it as the identity transform). -/
def noOpSchemaEvolution (buffers : CollectionReadBuffers) (_ : SchemaVersionT) :
    CollectionReadBuffers :=
  buffers

/-! ### Basic store lemmas -/

theorem deref_eq_some {δ : Type} {s : Store δ} {p : Nat} {o : ObjBase δ} :
    deref s p = some o ↔ s[p]? = some (some o) := by
  unfold deref
  cases h : s[p]? with
  | none => simp [Option.join]
  | some x => cases x <;> simp [Option.join]

theorem deref_lt_length {δ : Type} {s : Store δ} {p : Nat} {o : ObjBase δ}
    (h : deref s p = some o) : p < s.length := by
  rcases List.getElem?_eq_some.mp (deref_eq_some.mp h) with ⟨hl, _⟩
  exact hl

theorem deref_writeObj_self {δ : Type} {s : Store δ} {p : Nat}
    (x : Option (ObjBase δ)) (h : p < s.length) :
    deref (writeObj s p x) p = x := by
  unfold deref writeObj
  rw [List.getElem?_set_eq_of_lt x h]
  cases x <;> simp [Option.join]

theorem deref_writeObj_ne {δ : Type} (s : Store δ) (p q : Nat)
    (x : Option (ObjBase δ)) (h : p ≠ q) :
    deref (writeObj s p x) q = deref s q := by
  unfold deref writeObj
  rw [List.getElem?_set_ne h]

theorem deref_acquire_self {δ : Type} {s : Store δ} {p : Nat} {o : ObjBase δ}
    (h : deref s p = some o) :
    deref (acquire s p) p = some { o with refCount := o.refCount + 1 } := by
  unfold acquire
  rw [h]
  exact deref_writeObj_self _ (deref_lt_length h)

theorem deref_acquire_ne {δ : Type} {s : Store δ} {p q : Nat} (h : p ≠ q) :
    deref (acquire s p) q = deref s q := by
  unfold acquire
  cases hd : deref s p with
  | none => rfl
  | some o => exact deref_writeObj_ne s p q _ h

theorem deref_release_destroy {δ : Type} {s : Store δ} {p : Nat} {o : ObjBase δ}
    (h : deref s p = some o) (h1 : o.refCount ≤ 1) :
    deref (release s p) p = none := by
  unfold release
  rw [h]
  simp only [if_pos h1]
  exact deref_writeObj_self _ (deref_lt_length h)

theorem deref_release_dec {δ : Type} {s : Store δ} {p : Nat} {o : ObjBase δ}
    (h : deref s p = some o) (h2 : 2 ≤ o.refCount) :
    deref (release s p) p = some { o with refCount := o.refCount - 1 } := by
  unfold release
  rw [h]
  simp only [if_neg (show ¬o.refCount ≤ 1 by omega)]
  exact deref_writeObj_self _ (deref_lt_length h)

theorem deref_release_ne {δ : Type} {s : Store δ} {p q : Nat} (h : p ≠ q) :
    deref (release s p) q = deref s q := by
  unfold release
  cases hd : deref s p with
  | none => rfl
  | some o =>
    by_cases h1 : o.refCount ≤ 1
    · simp only [if_pos h1]
      exact deref_writeObj_ne s p q _ h
    · simp only [if_neg h1]
      exact deref_writeObj_ne s p q _ h

theorem deref_append_left {δ : Type} {s : Store δ} {p : Nat}
    (x : Option (ObjBase δ)) (h : p < s.length) :
    deref (s ++ [x]) p = deref s p := by
  unfold deref
  rw [List.getElem?_append, if_pos h]

theorem deref_concat_length {δ : Type} (s : Store δ) (x : Option (ObjBase δ)) :
    deref (s ++ [x]) s.length = x := by
  unfold deref
  rw [List.getElem?_concat_length]
  cases x <;> simp [Option.join]

theorem getD_set_self {α : Type} (l : List α) (i : Nat) (a d : α)
    (h : i < l.length) : (l.set i a).getD i d = a := by
  rw [List.getD_eq_getElem?_getD, List.getElem?_set_eq_of_lt a h]
  rfl

theorem registerEvolutionFunc_empty_slot (reg : SchemaEvolution) (collType : String)
    (fromVersion : SchemaVersionT) (f : EvolutionFuncT) (prio : Priority)
    (mi : MapIndex) (idx : Nat)
    (hl : lookupType reg collType = some mi) (hidx : mi.index = some idx)
    (hslot : (slotTable reg idx).getD (fromVersion - 1) none = none) :
    registerEvolutionFunc reg collType fromVersion mi.currentVersion f prio =
      ({ reg with m_evolutionFuncs := (reg.m_evolutionFuncs.set idx
          ((slotTable reg idx).set (fromVersion - 1) (some (prio, f)))) }, none) := by
  have hslotg : (slotTable reg idx)[fromVersion - 1]?.getD none = none := by
    rw [← List.getD_eq_getElem?_getD]
    exact hslot
  unfold registerEvolutionFunc
  simp [hl, hidx, hslotg]

theorem registerEvolutionFunc_user_overrides (reg : SchemaEvolution)
    (collType : String) (fromVersion : SchemaVersionT) (g oldF : EvolutionFuncT)
    (mi : MapIndex) (idx : Nat)
    (hl : lookupType reg collType = some mi) (hidx : mi.index = some idx)
    (hslot : (slotTable reg idx).getD (fromVersion - 1) none =
      some (.AutoGenerated, oldF)) :
    registerEvolutionFunc reg collType fromVersion mi.currentVersion g .UserDefined =
      ({ reg with m_evolutionFuncs := (reg.m_evolutionFuncs.set idx
          ((slotTable reg idx).set (fromVersion - 1)
            (some (.UserDefined, g)))) }, none) := by
  have hslotg : (slotTable reg idx)[fromVersion - 1]?.getD none =
      some (.AutoGenerated, oldF) := by
    rw [← List.getD_eq_getElem?_getD]
    exact hslot
  unfold registerEvolutionFunc
  simp [hl, hidx, hslotg]

theorem registerEvolutionFunc_auto_blocked (reg : SchemaEvolution)
    (collType : String) (fromVersion : SchemaVersionT) (f oldF : EvolutionFuncT)
    (mi : MapIndex) (idx : Nat)
    (hl : lookupType reg collType = some mi) (hidx : mi.index = some idx)
    (hslot : (slotTable reg idx).getD (fromVersion - 1) none =
      some (.UserDefined, oldF)) :
    registerEvolutionFunc reg collType fromVersion mi.currentVersion f .AutoGenerated =
      (reg, some .priorityConflict) := by
  have hslotg : (slotTable reg idx)[fromVersion - 1]?.getD none =
      some (.UserDefined, oldF) := by
    rw [← List.getD_eq_getElem?_getD]
    exact hslot
  unfold registerEvolutionFunc
  simp [hl, hidx, hslotg]

/-! ### Claim theorems -/

/-- C2: for a type registered with current version `mi.currentVersion`,
evolving buffers already at that version takes the fast path: the identical
input buffers are returned unchanged and no registered evolution function is
invoked (the `fastPath` outcome carries the input itself and, by
construction, bypasses the function table). -/
theorem evolveBuffers_sameVersion_fastPath (reg : SchemaEvolution)
    (b : CollectionReadBuffers) (collType : String) (mi : MapIndex)
    (hl : lookupType reg collType = some mi) :
    evolveBuffers reg b mi.currentVersion collType = .ok (.fastPath b) := by
  unfold evolveBuffers
  simp [hl]

/-- Witness for C2 at a concrete registry holding the type `Track` at
current version 2 with a registered no-op evolution function. -/
theorem evolveBuffers_sameVersion_fastPath_witness :
    lookupType ⟨[("Track", ⟨2, some 0⟩)],
        [[some (.AutoGenerated, noOpSchemaEvolution)]]⟩ "Track" =
      some ⟨2, some 0⟩ ∧
    evolveBuffers ⟨[("Track", ⟨2, some 0⟩)],
        [[some (.AutoGenerated, noOpSchemaEvolution)]]⟩ ⟨[7], [[3]], 2⟩ 2 "Track" =
      .ok (.fastPath ⟨[7], [[3]], 2⟩) :=
  ⟨rfl,
   evolveBuffers_sameVersion_fastPath
     ⟨[("Track", ⟨2, some 0⟩)], [[some (.AutoGenerated, noOpSchemaEvolution)]]⟩
     ⟨[7], [[3]], 2⟩ "Track" ⟨2, some 0⟩ rfl⟩

/-- C3: for a registered type and a `fromVersion` different from the
current version, when no evolution function occupies the
`(type, fromVersion)` slot, `evolveBuffers` fails with a lookup miss — an
error distinct from the same-version fast path — and never returns a
successful outcome, in particular never the input buffers as if by
identity. -/
theorem evolveBuffers_lookupMiss (reg : SchemaEvolution)
    (b : CollectionReadBuffers) (fromVersion : SchemaVersionT)
    (collType : String) (mi : MapIndex)
    (hl : lookupType reg collType = some mi)
    (hv : fromVersion ≠ mi.currentVersion)
    (hf : ∀ idx, mi.index = some idx →
      (slotTable reg idx).getD (fromVersion - 1) none = none) :
    evolveBuffers reg b fromVersion collType = .error .lookupMiss ∧
    ∀ outcome, evolveBuffers reg b fromVersion collType ≠ .ok outcome := by
  have hmain : evolveBuffers reg b fromVersion collType = .error .lookupMiss := by
    unfold evolveBuffers
    simp only [hl, if_neg hv]
    cases hidx : mi.index with
    | none => rfl
    | some idx => simp only [hf idx hidx]
  refine ⟨hmain, fun outcome hcontra => ?_⟩
  rw [hmain] at hcontra
  exact Except.noConfusion hcontra

/-- Witness for C3 at a concrete registry holding the type `Track` at
current version 3 whose slot for `fromVersion = 1` is empty. -/
theorem evolveBuffers_lookupMiss_witness :
    lookupType ⟨[("Track", ⟨3, some 0⟩)],
        [[none, some (.AutoGenerated, noOpSchemaEvolution)]]⟩ "Track" =
      some ⟨3, some 0⟩ ∧
    (1 : SchemaVersionT) ≠ 3 ∧
    evolveBuffers ⟨[("Track", ⟨3, some 0⟩)],
        [[none, some (.AutoGenerated, noOpSchemaEvolution)]]⟩ ⟨[7], [[3]], 1⟩ 1 "Track" =
      .error .lookupMiss :=
  ⟨rfl, by decide,
   (evolveBuffers_lookupMiss
     ⟨[("Track", ⟨3, some 0⟩)], [[none, some (.AutoGenerated, noOpSchemaEvolution)]]⟩
     ⟨[7], [[3]], 1⟩ 1 "Track" ⟨3, some 0⟩ rfl (by decide)
     (fun idx hidx => by
        cases hidx
        rfl)).1⟩

/-- C4: registering an `AutoGenerated` function `f` and a `UserDefined`
function `g` for the same empty `(type, fromVersion)` slot, in either
order, leaves the registry in the same final state — the slot held by the
`UserDefined` function — and a subsequent `evolveBuffers` call for that
slot invokes `g`: priority, not insertion order, decides. -/
theorem registerEvolutionFunc_priority_order_independent (reg : SchemaEvolution)
    (collType : String) (fromVersion : SchemaVersionT) (f g : EvolutionFuncT)
    (b : CollectionReadBuffers) (mi : MapIndex) (idx : Nat)
    (hl : lookupType reg collType = some mi)
    (hidx : mi.index = some idx)
    (hlt : idx < reg.m_evolutionFuncs.length)
    (hrange : fromVersion - 1 < (slotTable reg idx).length)
    (hslot : (slotTable reg idx).getD (fromVersion - 1) none = none)
    (hv : fromVersion ≠ mi.currentVersion) :
    (registerEvolutionFunc
        (registerEvolutionFunc reg collType fromVersion mi.currentVersion f
          .AutoGenerated).1
        collType fromVersion mi.currentVersion g .UserDefined).1 =
      { reg with m_evolutionFuncs := (reg.m_evolutionFuncs.set idx
          ((slotTable reg idx).set (fromVersion - 1) (some (.UserDefined, g)))) } ∧
    (registerEvolutionFunc
        (registerEvolutionFunc reg collType fromVersion mi.currentVersion g
          .UserDefined).1
        collType fromVersion mi.currentVersion f .AutoGenerated).1 =
      { reg with m_evolutionFuncs := (reg.m_evolutionFuncs.set idx
          ((slotTable reg idx).set (fromVersion - 1) (some (.UserDefined, g)))) } ∧
    evolveBuffers
      { reg with m_evolutionFuncs := (reg.m_evolutionFuncs.set idx
          ((slotTable reg idx).set (fromVersion - 1) (some (.UserDefined, g)))) }
      b fromVersion collType = .ok (.evolved (g b fromVersion)) := by
  have hA := registerEvolutionFunc_empty_slot reg collType fromVersion f
    .AutoGenerated mi idx hl hidx hslot
  have hU := registerEvolutionFunc_empty_slot reg collType fromVersion g
    .UserDefined mi idx hl hidx hslot
  refine ⟨?_, ?_, ?_⟩
  · rw [hA]
    have hlA : lookupType
        { reg with m_evolutionFuncs := (reg.m_evolutionFuncs.set idx
            ((slotTable reg idx).set (fromVersion - 1)
              (some (.AutoGenerated, f)))) } collType = some mi := hl
    have hSTA : slotTable
        { reg with m_evolutionFuncs := (reg.m_evolutionFuncs.set idx
            ((slotTable reg idx).set (fromVersion - 1)
              (some (.AutoGenerated, f)))) } idx =
        (slotTable reg idx).set (fromVersion - 1) (some (.AutoGenerated, f)) := by
      show (reg.m_evolutionFuncs.set idx
          ((slotTable reg idx).set (fromVersion - 1)
            (some (.AutoGenerated, f)))).getD idx [] = _
      exact getD_set_self _ _ _ _ hlt
    have hslotA : (slotTable
        { reg with m_evolutionFuncs := (reg.m_evolutionFuncs.set idx
            ((slotTable reg idx).set (fromVersion - 1)
              (some (.AutoGenerated, f)))) } idx).getD (fromVersion - 1) none =
        some (.AutoGenerated, f) := by
      rw [hSTA]
      exact getD_set_self _ _ _ _ hrange
    rw [registerEvolutionFunc_user_overrides _ collType fromVersion g f mi idx hlA
      hidx hslotA]
    rw [hSTA]
    simp only [List.set_set]
  · rw [hU]
    have hlU : lookupType
        { reg with m_evolutionFuncs := (reg.m_evolutionFuncs.set idx
            ((slotTable reg idx).set (fromVersion - 1)
              (some (.UserDefined, g)))) } collType = some mi := hl
    have hSTU : slotTable
        { reg with m_evolutionFuncs := (reg.m_evolutionFuncs.set idx
            ((slotTable reg idx).set (fromVersion - 1)
              (some (.UserDefined, g)))) } idx =
        (slotTable reg idx).set (fromVersion - 1) (some (.UserDefined, g)) := by
      show (reg.m_evolutionFuncs.set idx
          ((slotTable reg idx).set (fromVersion - 1)
            (some (.UserDefined, g)))).getD idx [] = _
      exact getD_set_self _ _ _ _ hlt
    have hslotU : (slotTable
        { reg with m_evolutionFuncs := (reg.m_evolutionFuncs.set idx
            ((slotTable reg idx).set (fromVersion - 1)
              (some (.UserDefined, g)))) } idx).getD (fromVersion - 1) none =
        some (.UserDefined, g) := by
      rw [hSTU]
      exact getD_set_self _ _ _ _ hrange
    rw [registerEvolutionFunc_auto_blocked _ collType fromVersion f g mi idx hlU
      hidx hslotU]
  · have hlT : lookupType
        { reg with m_evolutionFuncs := (reg.m_evolutionFuncs.set idx
            ((slotTable reg idx).set (fromVersion - 1)
              (some (.UserDefined, g)))) } collType = some mi := hl
    have hSTT : slotTable
        { reg with m_evolutionFuncs := (reg.m_evolutionFuncs.set idx
            ((slotTable reg idx).set (fromVersion - 1)
              (some (.UserDefined, g)))) } idx =
        (slotTable reg idx).set (fromVersion - 1) (some (.UserDefined, g)) := by
      show (reg.m_evolutionFuncs.set idx
          ((slotTable reg idx).set (fromVersion - 1)
            (some (.UserDefined, g)))).getD idx [] = _
      exact getD_set_self _ _ _ _ hlt
    unfold evolveBuffers
    simp only [hlT, if_neg hv, hidx, hSTT, getD_set_self _ _ _ _ hrange]

/-- Witness for C4 at a concrete registry holding the type `Track` at
current version 2 with an empty slot for `fromVersion = 1`; the
`AutoGenerated` function is the no-op and the `UserDefined` one bumps the
version tag. -/
theorem registerEvolutionFunc_priority_order_independent_witness :
    lookupType ⟨[("Track", ⟨2, some 0⟩)], [[none]]⟩ "Track" = some ⟨2, some 0⟩ ∧
    (1 : SchemaVersionT) ≠ 2 ∧
    (registerEvolutionFunc
        (registerEvolutionFunc ⟨[("Track", ⟨2, some 0⟩)], [[none]]⟩ "Track" 1 2
          noOpSchemaEvolution .AutoGenerated).1
        "Track" 1 2 (fun bb _ => { bb with schemaVersion := 2 }) .UserDefined).1 =
      ⟨[("Track", ⟨2, some 0⟩)],
       [[some (.UserDefined, fun bb _ => { bb with schemaVersion := 2 })]]⟩ ∧
    evolveBuffers
      ⟨[("Track", ⟨2, some 0⟩)],
       [[some (.UserDefined, fun bb _ => { bb with schemaVersion := 2 })]]⟩
      ⟨[7], [[3]], 1⟩ 1 "Track" = .ok (.evolved ⟨[7], [[3]], 2⟩) :=
  ⟨rfl, by decide,
   (registerEvolutionFunc_priority_order_independent
      ⟨[("Track", ⟨2, some 0⟩)], [[none]]⟩ "Track" 1 noOpSchemaEvolution
      (fun bb _ => { bb with schemaVersion := 2 }) ⟨[7], [[3]], 1⟩ ⟨2, some 0⟩ 0
      rfl rfl (by decide) (by decide) rfl (by decide)).1,
   (registerEvolutionFunc_priority_order_independent
      ⟨[("Track", ⟨2, some 0⟩)], [[none]]⟩ "Track" 1 noOpSchemaEvolution
      (fun bb _ => { bb with schemaVersion := 2 }) ⟨[7], [[3]], 1⟩ ⟨2, some 0⟩ 0
      rfl rfl (by decide) (by decide) rfl (by decide)).2.2⟩

/-- C8 (counterexample): at a record whose stored range has
`begin = 2 > end = 1` and whose backing shared vector is empty (so the end
index also lies beyond the vector's extent), the relation-range accessors
return ordinary iterator offsets — 2 and 1, an inverted range past the
vector — rather than raising a RelationRangeError or any other error: the
source performs no validation at all. -/
theorem clustersAccessors_unchecked_counterexample :
    Clusters_beginIter (RefStore.mk [some ⟨1, ⟨0, 0⟩, ⟨2, 1, 0, 0⟩⟩] [] []) 0 =
      some 2 ∧
    Clusters_endIter (RefStore.mk [some ⟨1, ⟨0, 0⟩, ⟨2, 1, 0, 0⟩⟩] [] []) 0 =
      some 1 ∧
    (2 : Int) > 1 ∧
    (((RefStore.mk [some ⟨1, ⟨0, 0⟩, ⟨2, 1, 0, 0⟩⟩] [] []).m_Clusters.length : Int)
      < 1) := by
  refine ⟨rfl, by decide, by decide, by decide⟩

/-- C8 (amended): the relation-range accessors perform no validation: for
every live record, whatever the stored range — begin greater than end or
end beyond the backing vector's extent included — `Clusters_begin()`
returns the iterator offset `data.Clusters_begin` and `Clusters_end()` the
offset `(data.Clusters_end - 1) + 1 = data.Clusters_end`, with no error
raised; an invalid range flows through as an out-of-range iterator pair
(undefined behaviour in C++), not as a synchronous RelationRangeError. -/
theorem clustersAccessors_unchecked (s : RefStore) (p : Nat)
    (o : ObjBase ExampleReferencingTypeData) (hp : deref s.objs p = some o) :
    Clusters_beginIter s p = some o.data.Clusters_begin ∧
    Clusters_endIter s p = some (o.data.Clusters_end - 1 + 1) ∧
    o.data.Clusters_end - 1 + 1 = o.data.Clusters_end := by
  unfold Clusters_beginIter Clusters_endIter Clusters_endIterPre
  rw [hp]
  exact ⟨rfl, rfl, by omega⟩

/-- Witness for C8 (amended) at the invalid concrete record of the
counterexample: the stored values flow through unchecked. -/
theorem clustersAccessors_unchecked_witness :
    deref (RefStore.mk [some ⟨1, ⟨0, 0⟩, ⟨2, 1, 0, 0⟩⟩] [] []).objs 0 =
      some ⟨1, ⟨0, 0⟩, ⟨2, 1, 0, 0⟩⟩ ∧
    Clusters_beginIter (RefStore.mk [some ⟨1, ⟨0, 0⟩, ⟨2, 1, 0, 0⟩⟩] [] []) 0 =
      some 2 :=
  ⟨rfl,
   (clustersAccessors_unchecked (RefStore.mk [some ⟨1, ⟨0, 0⟩, ⟨2, 1, 0, 0⟩⟩] [] [])
      0 ⟨1, ⟨0, 0⟩, ⟨2, 1, 0, 0⟩⟩ rfl).1⟩

/-- C10: for a live record with stored end index at least 1, the iterator
returned by `Clusters_end()` — the begin iterator advanced by `end - 1`
and then incremented once — equals the vector's begin iterator advanced
directly by the stored end index, and the covered slice of the backing
vector has exactly `end - begin` elements whenever the stored range is
within bounds; for a stored end index of 0 the intermediate iterator is
formed at offset `-1`, before the vector's begin, so the computation is
not total over all stored range values. -/
theorem clustersEnd_refines_direct_advance (s : RefStore) (p : Nat)
    (o : ObjBase ExampleReferencingTypeData) (hp : deref s.objs p = some o) :
    (1 ≤ o.data.Clusters_end →
      Clusters_endIter s p = some o.data.Clusters_end ∧
      Clusters_beginIter s p = some o.data.Clusters_begin) ∧
    (0 ≤ o.data.Clusters_begin → o.data.Clusters_begin ≤ o.data.Clusters_end →
      o.data.Clusters_end ≤ (s.m_Clusters.length : Int) →
      ((rangeElems s.m_Clusters o.data.Clusters_begin o.data.Clusters_end).length
          : Int) =
        o.data.Clusters_end - o.data.Clusters_begin) ∧
    (o.data.Clusters_end = 0 →
      Clusters_endIterPre s p = some (-1)) := by
  refine ⟨fun h1 => ⟨?_, ?_⟩, fun hb hbe he => ?_, fun h0 => ?_⟩
  · unfold Clusters_endIter Clusters_endIterPre
    rw [hp]
    show some (o.data.Clusters_end - 1 + 1) = _
    congr 1
    omega
  · unfold Clusters_beginIter
    rw [hp]
    rfl
  · unfold rangeElems
    simp only [List.length_take, List.length_drop]
    omega
  · unfold Clusters_endIterPre
    rw [hp]
    show some (o.data.Clusters_end - 1) = _
    rw [h0]
    rfl

/-- Witness for C10: a record with range `[0, 2)` over a two-element
vector, and a record with stored end index 0 exercising the before-begin
intermediate iterator. -/
theorem clustersEnd_refines_direct_advance_witness :
    deref (RefStore.mk [some ⟨1, ⟨0, 0⟩, ⟨0, 2, 0, 0⟩⟩] [5, 6] []).objs 0 =
      some ⟨1, ⟨0, 0⟩, ⟨0, 2, 0, 0⟩⟩ ∧
    (1 : Int) ≤ 2 ∧
    Clusters_endIter (RefStore.mk [some ⟨1, ⟨0, 0⟩, ⟨0, 2, 0, 0⟩⟩] [5, 6] []) 0 =
      some 2 ∧
    ((rangeElems [5, 6] 0 2).length : Int) = 2 - 0 ∧
    deref (RefStore.mk [some ⟨1, ⟨0, 0⟩, ⟨0, 0, 0, 0⟩⟩] [5, 6] []).objs 0 =
      some ⟨1, ⟨0, 0⟩, ⟨0, 0, 0, 0⟩⟩ ∧
    Clusters_endIterPre (RefStore.mk [some ⟨1, ⟨0, 0⟩, ⟨0, 0, 0, 0⟩⟩] [5, 6] []) 0 =
      some (-1) :=
  ⟨rfl, by decide,
   ((clustersEnd_refines_direct_advance
      (RefStore.mk [some ⟨1, ⟨0, 0⟩, ⟨0, 2, 0, 0⟩⟩] [5, 6] []) 0
      ⟨1, ⟨0, 0⟩, ⟨0, 2, 0, 0⟩⟩ rfl).1 (by decide)).1,
   (clustersEnd_refines_direct_advance
      (RefStore.mk [some ⟨1, ⟨0, 0⟩, ⟨0, 2, 0, 0⟩⟩] [5, 6] []) 0
      ⟨1, ⟨0, 0⟩, ⟨0, 2, 0, 0⟩⟩ rfl).2.1 (by decide) (by decide) (by decide),
   rfl,
   (clustersEnd_refines_direct_advance
      (RefStore.mk [some ⟨1, ⟨0, 0⟩, ⟨0, 0, 0, 0⟩⟩] [5, 6] []) 0
      ⟨1, ⟨0, 0⟩, ⟨0, 0, 0, 0⟩⟩ rfl).2.2 rfl⟩

/-- C1 (evaluation at the failing input): handle `a` references payload `Q`
(address 0, refcount 1) and handle `b` references payload `P` (address 1,
refcount 1).  The assignment `a = b` decrements `Q`'s count and destroys it
and attaches `a` to `P`, but leaves `P`'s reference count at 1 instead of
incrementing it to 2: the source's `operator=` releases the old payload and
copies the pointer without an acquire, contradicting the spec and the
acquire discipline of every constructor of the same class. -/
theorem assign_missing_acquire_at_failing_input :
    (assign [some (⟨1, ⟨0, 0⟩, ⟨1, 2, 3, 4⟩⟩ : ObjBase ExampleHitData),
             some ⟨1, ⟨1, 0⟩, ⟨5, 6, 7, 8⟩⟩] ⟨some 0⟩ ⟨some 1⟩).1 =
      [none, some ⟨1, ⟨1, 0⟩, ⟨5, 6, 7, 8⟩⟩] ∧
    (assign [some (⟨1, ⟨0, 0⟩, ⟨1, 2, 3, 4⟩⟩ : ObjBase ExampleHitData),
             some ⟨1, ⟨1, 0⟩, ⟨5, 6, 7, 8⟩⟩] ⟨some 0⟩ ⟨some 1⟩).2 = ⟨some 1⟩ ∧
    (deref (assign [some (⟨1, ⟨0, 0⟩, ⟨1, 2, 3, 4⟩⟩ : ObjBase ExampleHitData),
             some ⟨1, ⟨1, 0⟩, ⟨5, 6, 7, 8⟩⟩] ⟨some 0⟩ ⟨some 1⟩).1 1).map (·.refCount) =
      some 1 := by
  refine ⟨rfl, rfl, rfl⟩

/-- C7: copy-constructing a handle `g` from a live handle on payload `o`
(reference count `n ≥ 1`) increments the count to `n + 1`; both handles
report `isAvailable` and resolve the same `getObjectID`; destroying the
original leaves the payload live with count `n` and the copy still
resolving the same identity. -/
theorem copyCtor_shares_payload {δ : Type} (s : Store δ) (p : Nat) (o : ObjBase δ)
    (n : Nat) (hp : deref s p = some o) (hn : o.refCount = n) (hn1 : 1 ≤ n) :
    deref (copyCtor s p).1 p = some { o with refCount := n + 1 } ∧
    (copyCtor s p).2 = ⟨some p⟩ ∧
    isAvailable (copyCtor s p).2 = true ∧
    isAvailable (⟨some p⟩ : Handle) = true ∧
    getObjectID (copyCtor s p).1 (copyCtor s p).2 = some o.id ∧
    getObjectID (copyCtor s p).1 ⟨some p⟩ = some o.id ∧
    deref (destruct (copyCtor s p).1 ⟨some p⟩) p = some { o with refCount := n } ∧
    getObjectID (destruct (copyCtor s p).1 ⟨some p⟩) ⟨some p⟩ = some o.id := by
  have hacq : deref (copyCtor s p).1 p = some { o with refCount := n + 1 } := by
    show deref (acquire s p) p = _
    rw [deref_acquire_self hp, hn]
  have hdes : deref (destruct (copyCtor s p).1 ⟨some p⟩) p =
      some { o with refCount := n } := by
    show deref (release (copyCtor s p).1 p) p = _
    rw [deref_release_dec hacq (by change 2 ≤ n + 1; omega)]
    simp
  refine ⟨hacq, rfl, rfl, rfl, ?_, ?_, hdes, ?_⟩
  · show (deref (copyCtor s p).1 p).map (·.id) = some o.id
    rw [hacq]; rfl
  · show (deref (copyCtor s p).1 p).map (·.id) = some o.id
    rw [hacq]; rfl
  · show (deref (destruct (copyCtor s p).1 ⟨some p⟩) p).map (·.id) = some o.id
    rw [hdes]; rfl

/-- Witness for C7 at a concrete one-payload store. -/
theorem copyCtor_shares_payload_witness :
    deref ([some ⟨1, ⟨0, 0⟩, ⟨1, 2, 3, 4⟩⟩] : Store ExampleHitData) 0 =
        some ⟨1, ⟨0, 0⟩, ⟨1, 2, 3, 4⟩⟩ ∧
    (⟨1, ⟨0, 0⟩, ⟨1, 2, 3, 4⟩⟩ : ObjBase ExampleHitData).refCount = 1 ∧
    (1 : Nat) ≤ 1 ∧
    deref (copyCtor ([some ⟨1, ⟨0, 0⟩, ⟨1, 2, 3, 4⟩⟩] : Store ExampleHitData) 0).1 0 =
        some ⟨2, ⟨0, 0⟩, ⟨1, 2, 3, 4⟩⟩ ∧
    deref (destruct
        (copyCtor ([some ⟨1, ⟨0, 0⟩, ⟨1, 2, 3, 4⟩⟩] : Store ExampleHitData) 0).1
        ⟨some 0⟩) 0 = some ⟨1, ⟨0, 0⟩, ⟨1, 2, 3, 4⟩⟩ :=
  ⟨rfl, rfl, by decide,
   (copyCtor_shares_payload
      ([some ⟨1, ⟨0, 0⟩, ⟨1, 2, 3, 4⟩⟩] : Store ExampleHitData) 0
      ⟨1, ⟨0, 0⟩, ⟨1, 2, 3, 4⟩⟩ 1 rfl rfl (by decide)).1,
   (copyCtor_shares_payload
      ([some ⟨1, ⟨0, 0⟩, ⟨1, 2, 3, 4⟩⟩] : Store ExampleHitData) 0
      ⟨1, ⟨0, 0⟩, ⟨1, 2, 3, 4⟩⟩ 1 rfl rfl (by decide)).2.2.2.2.2.2.1⟩

/-- C6: `clone()` on a live handle allocates a fresh payload at a new
address whose POD fields equal the source's, with reference count 1 and an
untracked identity, leaving the source payload untouched; mutating any
field of the clone never changes the source payload.  The final conjunct
states the same fresh-copy property for the referencing type, whose data
block is its relation-range values. -/
theorem clone_independent (s : Store ExampleHitData) (p : Nat)
    (o : ObjBase ExampleHitData) (hp : deref s p = some o) :
    (clone s p).2 = ⟨some s.length⟩ ∧
    p ≠ s.length ∧
    deref (clone s p).1 s.length =
      some { refCount := 1, id := ObjectID.untracked, data := o.data } ∧
    deref (clone s p).1 p = some o ∧
    (∀ v, deref (setX (clone s p).1 s.length v) p = some o) ∧
    (∀ v, deref (setY (clone s p).1 s.length v) p = some o) ∧
    (∀ v, deref (setZ (clone s p).1 s.length v) p = some o) ∧
    (∀ v, deref (setEnergy (clone s p).1 s.length v) p = some o) ∧
    (∀ (t : Store ExampleReferencingTypeData) (q : Nat)
       (u : ObjBase ExampleReferencingTypeData), deref t q = some u →
       deref (clone t q).1 t.length =
         some { refCount := 1, id := ObjectID.untracked, data := u.data } ∧
       deref (clone t q).1 q = some u) := by
  have hlt := deref_lt_length hp
  have hne : p ≠ s.length := Nat.ne_of_lt hlt
  have h1 : (clone s p).1 = acquire (s ++ [some (objCopy o)]) s.length := by
    unfold clone
    rw [hp]
  have hq0 : deref (s ++ [some (objCopy o)]) s.length = some (objCopy o) :=
    deref_concat_length s _
  have hclone : deref (clone s p).1 s.length =
      some { refCount := 1, id := ObjectID.untracked, data := o.data } := by
    rw [h1, deref_acquire_self hq0]
    rfl
  have hsrc : deref (clone s p).1 p = some o := by
    rw [h1, deref_acquire_ne (Ne.symm hne), deref_append_left _ hlt]
    exact hp
  have hset : ∀ (f : ExampleHitData → ExampleHitData),
      deref (writeObj (clone s p).1 s.length
        (some { refCount := 1, id := ObjectID.untracked, data := f o.data })) p =
        some o := by
    intro f
    rw [deref_writeObj_ne _ _ _ _ (Ne.symm hne)]
    exact hsrc
  refine ⟨?_, hne, hclone, hsrc, ?_, ?_, ?_, ?_, ?_⟩
  · unfold clone
    rw [hp]
  · intro v
    unfold setX
    rw [hclone]
    exact hset fun d => { d with x := v }
  · intro v
    unfold setY
    rw [hclone]
    exact hset fun d => { d with y := v }
  · intro v
    unfold setZ
    rw [hclone]
    exact hset fun d => { d with z := v }
  · intro v
    unfold setEnergy
    rw [hclone]
    exact hset fun d => { d with energy := v }
  · intro t q u hu
    have hltq := deref_lt_length hu
    have h1t : (clone t q).1 = acquire (t ++ [some (objCopy u)]) t.length := by
      unfold clone
      rw [hu]
    have hq0t : deref (t ++ [some (objCopy u)]) t.length = some (objCopy u) :=
      deref_concat_length t _
    constructor
    · rw [h1t, deref_acquire_self hq0t]
      rfl
    · rw [h1t, deref_acquire_ne (Ne.symm (Nat.ne_of_lt hltq)),
        deref_append_left _ hltq]
      exact hu

/-- Witness for C6 at a concrete one-payload store, exercising the clone's
field copy and a mutation of the clone. -/
theorem clone_independent_witness :
    deref ([some ⟨1, ⟨0, 0⟩, ⟨1, 2, 3, 4⟩⟩] : Store ExampleHitData) 0 =
        some ⟨1, ⟨0, 0⟩, ⟨1, 2, 3, 4⟩⟩ ∧
    deref (clone ([some ⟨1, ⟨0, 0⟩, ⟨1, 2, 3, 4⟩⟩] : Store ExampleHitData) 0).1 1 =
        some ⟨1, ObjectID.untracked, ⟨1, 2, 3, 4⟩⟩ ∧
    deref (setEnergy
        (clone ([some ⟨1, ⟨0, 0⟩, ⟨1, 2, 3, 4⟩⟩] : Store ExampleHitData) 0).1 1 99) 0 =
        some ⟨1, ⟨0, 0⟩, ⟨1, 2, 3, 4⟩⟩ :=
  ⟨rfl,
   (clone_independent ([some ⟨1, ⟨0, 0⟩, ⟨1, 2, 3, 4⟩⟩] : Store ExampleHitData) 0
      ⟨1, ⟨0, 0⟩, ⟨1, 2, 3, 4⟩⟩ rfl).2.2.1,
   (clone_independent ([some ⟨1, ⟨0, 0⟩, ⟨1, 2, 3, 4⟩⟩] : Store ExampleHitData) 0
      ⟨1, ⟨0, 0⟩, ⟨1, 2, 3, 4⟩⟩ rfl).2.2.2.2.2.2.2.1 99⟩

theorem addClusters_spec (t : RefStore) (p comp : Nat)
    (u : ObjBase ExampleReferencingTypeData) (hu : deref t.objs p = some u) :
    (addClusters t p comp).m_Clusters = t.m_Clusters ++ [comp] ∧
    deref (addClusters t p comp).objs p =
      some { u with data := { u.data with Clusters_end := u.data.Clusters_end + 1 } } := by
  unfold addClusters
  rw [hu]
  exact ⟨rfl, deref_writeObj_self _ (deref_lt_length hu)⟩

theorem addClusters_objs_ne (t : RefStore) (p q comp : Nat) (h : p ≠ q) :
    deref (addClusters t p comp).objs q = deref t.objs q := by
  unfold addClusters
  cases hd : deref t.objs p with
  | none => rfl
  | some u => exact deref_writeObj_ne _ _ _ _ h

/-- C5: `addClusters` appends the component to the collection-shared vector
and bumps the record's end index by exactly one (first conjunct, for every
record); consequently, for two records whose initially empty ranges sit at
the vector's extent and two slots past it respectively, the sequence
`r0.add a, r0.add b, r1.add c` leaves r0's range covering exactly `[a, b]`
in order and r1's range covering exactly `[c]`, the two ranges disjoint. -/
theorem addClusters_relation_ranges
    (s : RefStore) (p0 p1 : Nat)
    (o0 o1 : ObjBase ExampleReferencingTypeData) (a b c : Nat)
    (hne : p0 ≠ p1)
    (h0 : deref s.objs p0 = some o0)
    (h1 : deref s.objs p1 = some o1)
    (hb0 : o0.data.Clusters_begin = (s.m_Clusters.length : Int))
    (he0 : o0.data.Clusters_end = (s.m_Clusters.length : Int))
    (hb1 : o1.data.Clusters_begin = (s.m_Clusters.length : Int) + 2)
    (he1 : o1.data.Clusters_end = (s.m_Clusters.length : Int) + 2) :
    (∀ (t : RefStore) (p comp : Nat) (u : ObjBase ExampleReferencingTypeData),
        deref t.objs p = some u →
        (addClusters t p comp).m_Clusters = t.m_Clusters ++ [comp] ∧
        deref (addClusters t p comp).objs p =
          some { u with data :=
            { u.data with Clusters_end := u.data.Clusters_end + 1 } }) ∧
    (addClusters (addClusters (addClusters s p0 a) p0 b) p1 c).m_Clusters =
      s.m_Clusters ++ [a, b, c] ∧
    deref (addClusters (addClusters (addClusters s p0 a) p0 b) p1 c).objs p0 =
      some { o0 with data :=
        { o0.data with Clusters_end := o0.data.Clusters_end + 1 + 1 } } ∧
    deref (addClusters (addClusters (addClusters s p0 a) p0 b) p1 c).objs p1 =
      some { o1 with data :=
        { o1.data with Clusters_end := o1.data.Clusters_end + 1 } } ∧
    rangeElems (addClusters (addClusters (addClusters s p0 a) p0 b) p1 c).m_Clusters
      o0.data.Clusters_begin (o0.data.Clusters_end + 1 + 1) = [a, b] ∧
    rangeElems (addClusters (addClusters (addClusters s p0 a) p0 b) p1 c).m_Clusters
      o1.data.Clusters_begin (o1.data.Clusters_end + 1) = [c] ∧
    o0.data.Clusters_end + 1 + 1 ≤ o1.data.Clusters_begin := by
  obtain ⟨hc1, hd1⟩ := addClusters_spec s p0 a o0 h0
  have h1s1 : deref (addClusters s p0 a).objs p1 = some o1 := by
    rw [addClusters_objs_ne _ _ _ _ hne]
    exact h1
  obtain ⟨hc2, hd2⟩ := addClusters_spec (addClusters s p0 a) p0 b _ hd1
  have h1s2 : deref (addClusters (addClusters s p0 a) p0 b).objs p1 = some o1 := by
    rw [addClusters_objs_ne _ _ _ _ hne]
    exact h1s1
  obtain ⟨hc3, hd3⟩ := addClusters_spec
    (addClusters (addClusters s p0 a) p0 b) p1 c o1 h1s2
  have h0s3 : deref (addClusters (addClusters (addClusters s p0 a) p0 b) p1 c).objs p0 =
      some { o0 with data :=
        { o0.data with Clusters_end := o0.data.Clusters_end + 1 + 1 } } := by
    rw [addClusters_objs_ne _ _ _ _ (Ne.symm hne)]
    exact hd2
  have hvec : (addClusters (addClusters (addClusters s p0 a) p0 b) p1 c).m_Clusters =
      s.m_Clusters ++ [a, b, c] := by
    rw [hc3, hc2, hc1]
    simp
  refine ⟨fun t p comp u hu => addClusters_spec t p comp u hu, hvec, h0s3, hd3,
    ?_, ?_, ?_⟩
  · rw [hvec, hb0, he0]
    unfold rangeElems
    have ht1 : ((s.m_Clusters.length : Int)).toNat = s.m_Clusters.length := by omega
    have ht2 : ((s.m_Clusters.length : Int) + 1 + 1 - (s.m_Clusters.length : Int)).toNat
        = 2 := by omega
    rw [ht1, ht2, List.drop_left]
    rfl
  · rw [hvec, hb1, he1]
    unfold rangeElems
    have ht1 : ((s.m_Clusters.length : Int) + 2).toNat = s.m_Clusters.length + 2 := by
      omega
    have ht2 : ((s.m_Clusters.length : Int) + 2 + 1 -
        ((s.m_Clusters.length : Int) + 2)).toNat = 1 := by omega
    rw [ht1, ht2]
    have hsplit : s.m_Clusters ++ [a, b, c] = (s.m_Clusters ++ [a, b]) ++ [c] := by
      simp
    rw [hsplit]
    have hlen : s.m_Clusters.length + 2 = (s.m_Clusters ++ [a, b]).length := by
      simp
    rw [hlen, List.drop_left]
    rfl
  · rw [he0, hb1]
    omega

/-- Witness for C5 at a concrete two-record store with an empty shared
vector. -/
theorem addClusters_relation_ranges_witness :
    deref (RefStore.mk [some ⟨1, ⟨0, 0⟩, ⟨0, 0, 0, 0⟩⟩, some ⟨1, ⟨1, 0⟩, ⟨2, 2, 0, 0⟩⟩]
        [] []).objs 0 = some ⟨1, ⟨0, 0⟩, ⟨0, 0, 0, 0⟩⟩ ∧
    (addClusters (addClusters (addClusters
        (RefStore.mk [some ⟨1, ⟨0, 0⟩, ⟨0, 0, 0, 0⟩⟩, some ⟨1, ⟨1, 0⟩, ⟨2, 2, 0, 0⟩⟩]
          [] []) 0 10) 0 11) 1 12).m_Clusters = [10, 11, 12] ∧
    rangeElems (addClusters (addClusters (addClusters
        (RefStore.mk [some ⟨1, ⟨0, 0⟩, ⟨0, 0, 0, 0⟩⟩, some ⟨1, ⟨1, 0⟩, ⟨2, 2, 0, 0⟩⟩]
          [] []) 0 10) 0 11) 1 12).m_Clusters 0 (0 + 1 + 1) = [10, 11] ∧
    rangeElems (addClusters (addClusters (addClusters
        (RefStore.mk [some ⟨1, ⟨0, 0⟩, ⟨0, 0, 0, 0⟩⟩, some ⟨1, ⟨1, 0⟩, ⟨2, 2, 0, 0⟩⟩]
          [] []) 0 10) 0 11) 1 12).m_Clusters 2 (2 + 1) = [12] :=
  ⟨rfl,
   (addClusters_relation_ranges
      (RefStore.mk [some ⟨1, ⟨0, 0⟩, ⟨0, 0, 0, 0⟩⟩, some ⟨1, ⟨1, 0⟩, ⟨2, 2, 0, 0⟩⟩] [] [])
      0 1 ⟨1, ⟨0, 0⟩, ⟨0, 0, 0, 0⟩⟩ ⟨1, ⟨1, 0⟩, ⟨2, 2, 0, 0⟩⟩ 10 11 12
      (by decide) rfl rfl rfl rfl rfl rfl).2.1,
   (addClusters_relation_ranges
      (RefStore.mk [some ⟨1, ⟨0, 0⟩, ⟨0, 0, 0, 0⟩⟩, some ⟨1, ⟨1, 0⟩, ⟨2, 2, 0, 0⟩⟩] [] [])
      0 1 ⟨1, ⟨0, 0⟩, ⟨0, 0, 0, 0⟩⟩ ⟨1, ⟨1, 0⟩, ⟨2, 2, 0, 0⟩⟩ 10 11 12
      (by decide) rfl rfl rfl rfl rfl rfl).2.2.2.2.1,
   (addClusters_relation_ranges
      (RefStore.mk [some ⟨1, ⟨0, 0⟩, ⟨0, 0, 0, 0⟩⟩, some ⟨1, ⟨1, 0⟩, ⟨2, 2, 0, 0⟩⟩] [] [])
      0 1 ⟨1, ⟨0, 0⟩, ⟨0, 0, 0, 0⟩⟩ ⟨1, ⟨1, 0⟩, ⟨2, 2, 0, 0⟩⟩ 10 11 12
      (by decide) rfl rfl rfl rfl rfl rfl).2.2.2.2.2.1⟩

/-- C9: self-assignment `h = h` on a live handle whose payload has
reference count `n` releases the payload without re-acquiring it: the
handle keeps pointing at the same address and still reports
`isAvailable`, but the count drops to `n - 1`, and for `n = 1` the
payload is destroyed by the assignment. -/
theorem assign_self_drops_refcount {δ : Type} (s : Store δ) (p : Nat)
    (o : ObjBase δ) (n : Nat) (hp : deref s p = some o) (hn : o.refCount = n) :
    (assign s ⟨some p⟩ ⟨some p⟩).2 = ⟨some p⟩ ∧
    isAvailable (assign s ⟨some p⟩ ⟨some p⟩).2 = true ∧
    (n = 1 → deref (assign s ⟨some p⟩ ⟨some p⟩).1 p = none) ∧
    (2 ≤ n → deref (assign s ⟨some p⟩ ⟨some p⟩).1 p =
      some { o with refCount := n - 1 }) := by
  refine ⟨rfl, rfl, ?_, ?_⟩
  · intro h1
    show deref (release s p) p = none
    exact deref_release_destroy hp (by omega)
  · intro h2
    show deref (release s p) p = some { o with refCount := n - 1 }
    rw [deref_release_dec hp (by omega), hn]

/-- Witness for C9 at a concrete one-payload store with reference count 1:
the payload is destroyed while the handle still reports availability. -/
theorem assign_self_drops_refcount_witness :
    deref ([some ⟨1, ⟨0, 0⟩, ⟨1, 2, 3, 4⟩⟩] : Store ExampleHitData) 0 =
        some ⟨1, ⟨0, 0⟩, ⟨1, 2, 3, 4⟩⟩ ∧
    isAvailable (assign ([some ⟨1, ⟨0, 0⟩, ⟨1, 2, 3, 4⟩⟩] : Store ExampleHitData)
        ⟨some 0⟩ ⟨some 0⟩).2 = true ∧
    deref (assign ([some ⟨1, ⟨0, 0⟩, ⟨1, 2, 3, 4⟩⟩] : Store ExampleHitData)
        ⟨some 0⟩ ⟨some 0⟩).1 0 = none :=
  ⟨rfl,
   (assign_self_drops_refcount
      ([some ⟨1, ⟨0, 0⟩, ⟨1, 2, 3, 4⟩⟩] : Store ExampleHitData) 0
      ⟨1, ⟨0, 0⟩, ⟨1, 2, 3, 4⟩⟩ 1 rfl rfl).2.1,
   (assign_self_drops_refcount
      ([some ⟨1, ⟨0, 0⟩, ⟨1, 2, 3, 4⟩⟩] : Store ExampleHitData) 0
      ⟨1, ⟨0, 0⟩, ⟨1, 2, 3, 4⟩⟩ 1 rfl rfl).2.2.1 rfl⟩

end Podio
